import Mathlib

/-!
Verification of the real-time assistant session core in
`src/components/AssistantView.tsx` (with the voice registry from
`src/types.ts`).

The embedding models:
* the wire codec `encode`/`decode` (base64 over raw bytes, the browser
  `btoa`/`atob` pair used by the source);
* `decodeAudioData` (interleaved 16-bit little-endian PCM to normalized
  per-channel sample arrays);
* the loudness update performed in `onaudioprocess`;
* the session state touched by the `onmessage` transport callback
  (transcript buffers, history, playback cursor, scheduled sources) and by
  `stopSession`/`startSession`;
* the tool-call dispatch switch and the voice registry.

Bytes are `Nat` values below 256, audio time and samples are exact
rationals (`ℚ`), and fallible browser calls are `Option`-valued.
-/

namespace AssistantView

/-! ## Wire codec: `encode` / `decode` (btoa / atob) -/

/-- The base64 transport alphabet used by `btoa`/`atob`. -/
def base64Alphabet : List Char :=
  "ABCDEFGHIJKLMNOPQRSTUVWXYZabcdefghijklmnopqrstuvwxyz0123456789+/".data

/-- Character for a 6-bit group (the `btoa` output alphabet). -/
def sextetToChar (s : Nat) : Char := base64Alphabet.getD s 'A'

/-- Index of a character in the transport alphabet; `none` for characters
outside it (where `atob` throws). -/
def charToSextet (c : Char) : Option Nat := base64Alphabet.findIdx? (fun x => x = c)

/-- `encode` from `AssistantView.tsx`: bytes to a base64 string, modelled at
the level of the character list produced by `btoa` (three bytes become four
sextets; a final group of one or two bytes is padded with `=`). -/
def encodeB64 : List Nat → List Char
  | [] => []
  | [b0] =>
      [sextetToChar (b0 / 4), sextetToChar (b0 % 4 * 16), '=', '=']
  | [b0, b1] =>
      [sextetToChar (b0 / 4), sextetToChar (b0 % 4 * 16 + b1 / 16),
       sextetToChar (b1 % 16 * 4), '=']
  | b0 :: b1 :: b2 :: rest =>
      sextetToChar (b0 / 4) :: sextetToChar (b0 % 4 * 16 + b1 / 16) ::
      sextetToChar (b1 % 16 * 4 + b2 / 64) :: sextetToChar (b2 % 64) ::
      encodeB64 rest

/-- `decode` from `AssistantView.tsx`: the `atob` base64 parser back to raw
bytes; `none` models the exception `atob` raises on malformed input. -/
def decodeB64 : List Char → Option (List Nat)
  | [] => some []
  | c0 :: c1 :: c2 :: c3 :: rest =>
      (charToSextet c0).bind fun s0 =>
      (charToSextet c1).bind fun s1 =>
      if c2 = '=' then
        if c3 = '=' ∧ rest = [] then some [s0 * 4 + s1 / 16] else none
      else
        (charToSextet c2).bind fun s2 =>
          if c3 = '=' then
            if rest = [] then some [s0 * 4 + s1 / 16, s1 % 16 * 16 + s2 / 4]
            else none
          else
            (charToSextet c3).bind fun s3 =>
            (decodeB64 rest).bind fun bs =>
            some ((s0 * 4 + s1 / 16) :: (s1 % 16 * 16 + s2 / 4) ::
                  (s2 % 4 * 64 + s3) :: bs)
  | _ => none

/-- `encode(bytes)` of the source: the wire string. -/
def encode (bytes : List Nat) : String := String.mk (encodeB64 bytes)

/-- `decode(base64)` of the source: the byte sequence, or `none` where `atob`
throws on malformed input. -/
def decode (base64 : String) : Option (List Nat) := decodeB64 base64.data

theorem charToSextet_sextetToChar :
    ∀ s : Nat, s < 64 → charToSextet (sextetToChar s) = some s := by decide

theorem sextetToChar_ne_pad :
    ∀ s : Nat, s < 64 → sextetToChar s ≠ '=' := by decide

theorem decodeB64_encodeB64 :
    ∀ x : List Nat, (∀ b ∈ x, b < 256) → decodeB64 (encodeB64 x) = some x
  | [], _ => rfl
  | [b0], h => by
      have hb0 : b0 < 256 := h b0 (by simp)
      simp only [encodeB64, decodeB64]
      rw [charToSextet_sextetToChar (b0 / 4) (by omega),
          charToSextet_sextetToChar (b0 % 4 * 16) (by omega)]
      simp only [Option.some_bind, if_pos rfl, and_self, ite_true]
      have hout : b0 / 4 * 4 + b0 % 4 * 16 / 16 = b0 := by omega
      rw [hout]
  | [b0, b1], h => by
      have hb0 : b0 < 256 := h b0 (by simp)
      have hb1 : b1 < 256 := h b1 (by simp)
      simp only [encodeB64, decodeB64]
      rw [charToSextet_sextetToChar (b0 / 4) (by omega),
          charToSextet_sextetToChar (b0 % 4 * 16 + b1 / 16) (by omega)]
      simp only [Option.some_bind]
      rw [if_neg (sextetToChar_ne_pad (b1 % 16 * 4) (by omega))]
      rw [charToSextet_sextetToChar (b1 % 16 * 4) (by omega)]
      simp only [Option.some_bind, if_pos rfl, ite_true]
      have e0 : b0 / 4 * 4 + (b0 % 4 * 16 + b1 / 16) / 16 = b0 := by omega
      have e1 : (b0 % 4 * 16 + b1 / 16) % 16 * 16 + b1 % 16 * 4 / 4 = b1 := by omega
      rw [e0, e1]
  | b0 :: b1 :: b2 :: rest, h => by
      have hb0 : b0 < 256 := h b0 (by simp)
      have hb1 : b1 < 256 := h b1 (by simp)
      have hb2 : b2 < 256 := h b2 (by simp)
      have ih : decodeB64 (encodeB64 rest) = some rest :=
        decodeB64_encodeB64 rest (fun b hb => h b (by simp [hb]))
      simp only [encodeB64, decodeB64]
      rw [charToSextet_sextetToChar (b0 / 4) (by omega),
          charToSextet_sextetToChar (b0 % 4 * 16 + b1 / 16) (by omega)]
      simp only [Option.some_bind]
      rw [if_neg (sextetToChar_ne_pad (b1 % 16 * 4 + b2 / 64) (by omega))]
      rw [charToSextet_sextetToChar (b1 % 16 * 4 + b2 / 64) (by omega)]
      simp only [Option.some_bind]
      rw [if_neg (sextetToChar_ne_pad (b2 % 64) (by omega))]
      rw [charToSextet_sextetToChar (b2 % 64) (by omega)]
      simp only [Option.some_bind]
      rw [ih]
      simp only [Option.some_bind, Option.some.injEq, List.cons.injEq]
      refine ⟨by omega, by omega, by omega, by trivial⟩

/-- C1: for every byte sequence `x` (bytes below 256, as produced by a
`Uint8Array`), the wire encoder composed with the decoder is the identity:
`decode (encode x) = some x`. -/
theorem c1_decode_encode_roundtrip (x : List Nat) (h : ∀ b ∈ x, b < 256) :
    decode (encode x) = some x :=
  decodeB64_encodeB64 x h

/-- Concrete instance of the C1 round-trip on a five-byte sequence. -/
theorem c1_decode_encode_roundtrip_witness :
    (∀ b ∈ [72, 101, 255, 0, 1], b < 256) ∧
      decode (encode [72, 101, 255, 0, 1]) = some [72, 101, 255, 0, 1] :=
  ⟨by decide, c1_decode_encode_roundtrip [72, 101, 255, 0, 1] (by decide)⟩

/-! ## `decodeAudioData`: interleaved 16-bit LE PCM to per-channel samples -/

/-- A signed 16-bit sample from a little-endian byte pair (the view an
`Int16Array` places over the byte buffer). -/
def toInt16 (lo hi : Nat) : Int :=
  if lo + 256 * hi < 32768 then ((lo + 256 * hi : Nat) : Int)
  else ((lo + 256 * hi : Nat) : Int) - 65536

/-- The `Int16Array` contents: consecutive byte pairs as signed samples. -/
def bytesToInt16 : List Nat → List Int
  | lo :: hi :: rest => toInt16 lo hi :: bytesToInt16 rest
  | _ => []

/-- The result of `ctx.createBuffer` after the fill loops of
`decodeAudioData`: a sample rate and per-channel normalized sample lists. -/
structure AudioBufferModel where
  sampleRate : Nat
  channels : List (List ℚ)
  deriving DecidableEq

/-- `AudioBuffer.duration`: frame count over sample rate. -/
def AudioBufferModel.duration (b : AudioBufferModel) : ℚ :=
  ((b.channels.headD []).length : ℚ) / (b.sampleRate : ℚ)

/-- `decodeAudioData` from `AssistantView.tsx`. `none` models the thrown
exceptions: the `Int16Array` constructor throws when the byte length is
odd, and `ctx.createBuffer` throws `NotSupportedError` for a channel count
outside 1..32, for a sample rate outside the nominal range (a conforming
implementation must support 8000..96000 Hz and rejects rates outside its
range), and for a zero frame length. Otherwise the frame count is the
(floored) number of whole frames — writes past the created buffer's length
are silently dropped — and each retained sample is
`dataInt16[i * numChannels + channel] / 32768`. -/
def decodeAudioData (data : List Nat) (sampleRate numChannels : Nat) :
    Option AudioBufferModel :=
  if data.length % 2 ≠ 0 then none
  else if numChannels = 0 ∨ 32 < numChannels then none
  else if sampleRate < 8000 ∨ 96000 < sampleRate then none
  else if (bytesToInt16 data).length / numChannels = 0 then none
  else
    some ⟨sampleRate,
      (List.range numChannels).map fun channel =>
        (List.range ((bytesToInt16 data).length / numChannels)).map fun i =>
          (((bytesToInt16 data).getD (i * numChannels + channel) 0 : Int) : ℚ) / 32768⟩

theorem bytesToInt16_length : ∀ l : List Nat, (bytesToInt16 l).length = l.length / 2
  | [] => rfl
  | [_] => by simp [bytesToInt16]
  | _ :: _ :: rest => by
      simp only [bytesToInt16, List.length_cons, bytesToInt16_length rest]
      omega

theorem bytesToInt16_getD :
    ∀ (l : List Nat) (j : Nat), j < l.length / 2 →
      (bytesToInt16 l).getD j 0 = toInt16 (l.getD (2 * j) 0) (l.getD (2 * j + 1) 0)
  | [], _, h => by simp only [List.length_nil] at h; omega
  | [_], _, h => by simp only [List.length_cons, List.length_nil] at h; omega
  | lo :: hi :: rest, 0, _ => rfl
  | lo :: hi :: rest, j + 1, h => by
      have hr : j < rest.length / 2 := by
        simp only [List.length_cons] at h; omega
      have e2 : 2 * (j + 1) = 2 * j + 1 + 1 := by omega
      rw [e2]
      simp only [bytesToInt16, List.getD_cons_succ]
      exact bytesToInt16_getD rest j hr

theorem getD_map_range {α : Type} (n : Nat) (f : Nat → α) (d : α) (i : Nat)
    (h : i < n) : ((List.range n).map f).getD i d = f i := by
  rw [List.getD_eq_getElem?_getD, List.getElem?_map, List.getElem?_range h]
  rfl

/-- C5 counterexample: on a 3-byte input with one channel, `decodeAudioData`
does not truncate — the `Int16Array` construction over the odd-length buffer
throws, so the call errors (modelled as `none`). -/
theorem c5_counterexample : decodeAudioData [0, 0, 1] 24000 1 = none := by decide

/-- C5 (amended): for a byte sequence holding at least one whole frame of
even byte length, a channel count in 1..32, and a sample rate in the
nominal 8000..96000 range, `decodeAudioData` never errors: it truncates to
the nearest whole frame (each channel keeps `(byteLength / 2) / channelCount`
samples) and each retained sample is the interleaved 16-bit little-endian
value at `i * numChannels + channel`, normalized by dividing by 32768.
Outside those bounds the call throws: odd byte length in the `Int16Array`
constructor, and zero frames, channel count or sample rate out of range in
`createBuffer`. -/
theorem c5_decodeAudioData_amended (data : List Nat) (sampleRate numChannels : Nat)
    (h1 : 1 ≤ numChannels) (h2 : numChannels ≤ 32) (h3 : data.length % 2 = 0)
    (h4 : 8000 ≤ sampleRate) (h5 : sampleRate ≤ 96000)
    (h6 : 1 ≤ data.length / 2 / numChannels) :
    ∃ b, decodeAudioData data sampleRate numChannels = some b ∧
      b.sampleRate = sampleRate ∧
      b.channels.length = numChannels ∧
      (∀ c ∈ b.channels, c.length = data.length / 2 / numChannels) ∧
      (∀ channel i, channel < numChannels → i < data.length / 2 / numChannels →
        (b.channels.getD channel []).getD i 0 =
          ((toInt16 (data.getD (2 * (i * numChannels + channel)) 0)
                    (data.getD (2 * (i * numChannels + channel) + 1) 0) : Int) : ℚ)
            / 32768) := by
  have hne : ¬ data.length % 2 ≠ 0 := by omega
  have hch : ¬ (numChannels = 0 ∨ 32 < numChannels) := by omega
  have hsr : ¬ (sampleRate < 8000 ∨ 96000 < sampleRate) := by omega
  have hlen : (bytesToInt16 data).length = data.length / 2 := bytesToInt16_length data
  have hfc : ¬ ((bytesToInt16 data).length / numChannels = 0) := by
    rw [hlen]; omega
  refine ⟨⟨sampleRate,
      (List.range numChannels).map fun channel =>
        (List.range ((bytesToInt16 data).length / numChannels)).map fun i =>
          ((bytesToInt16 data).getD (i * numChannels + channel) 0 : Int) / 32768⟩,
    ?_, rfl, ?_, ?_, ?_⟩
  · rw [decodeAudioData, if_neg hne, if_neg hch, if_neg hsr, if_neg hfc]
  · simp
  · intro c hc
    rcases List.mem_map.1 hc with ⟨channel, _, rfl⟩
    simp [hlen]
  · intro channel i hchannel hi
    rw [getD_map_range numChannels _ [] channel hchannel]
    rw [getD_map_range _ _ 0 i (by rw [hlen]; exact hi)]
    have hq : (data.length / 2 / numChannels) * numChannels ≤ data.length / 2 :=
      Nat.div_mul_le_self _ _
    have hstep : i * numChannels + channel < (data.length / 2 / numChannels) * numChannels := by
      calc i * numChannels + channel < i * numChannels + numChannels := by omega
        _ = (i + 1) * numChannels := by ring
        _ ≤ (data.length / 2 / numChannels) * numChannels :=
            Nat.mul_le_mul_right numChannels (by omega)
    rw [bytesToInt16_getD data (i * numChannels + channel) (by omega)]

/-- Concrete instance of the amended C5 on four bytes, two channels. -/
theorem c5_decodeAudioData_amended_witness :
    (1 ≤ 2 ∧ 2 ≤ 32 ∧ ([1, 2, 3, 4] : List Nat).length % 2 = 0 ∧
     8000 ≤ 24000 ∧ 24000 ≤ 96000 ∧
     1 ≤ ([1, 2, 3, 4] : List Nat).length / 2 / 2) ∧
      (∃ b, decodeAudioData [1, 2, 3, 4] 24000 2 = some b ∧
        b.sampleRate = 24000 ∧
        b.channels.length = 2 ∧
        (∀ c ∈ b.channels, c.length = ([1, 2, 3, 4] : List Nat).length / 2 / 2) ∧
        (∀ channel i, channel < 2 → i < ([1, 2, 3, 4] : List Nat).length / 2 / 2 →
          (b.channels.getD channel []).getD i 0 =
            ((toInt16 (([1, 2, 3, 4] : List Nat).getD (2 * (i * 2 + channel)) 0)
                      (([1, 2, 3, 4] : List Nat).getD (2 * (i * 2 + channel) + 1) 0) : Int) : ℚ)
              / 32768)) :=
  ⟨by decide,
   c5_decodeAudioData_amended [1, 2, 3, 4] 24000 2 (by decide) (by decide) (by decide)
     (by decide) (by decide) (by decide)⟩

/-! ## Loudness update (`onaudioprocess`) -/

/-- The running sum-of-squares loop of `onaudioprocess`:
`for (const amplitude of inputData) sumSquares += amplitude * amplitude`. -/
def sumSquares (frame : List ℚ) : ℚ := frame.foldl (fun acc a => acc + a * a) 0

/-- The loudness update of `onaudioprocess`:
`volumeRef.current = Math.max(Math.sqrt(sumSquares / inputData.length), volumeRef.current * 0.7)`.
The square root is the external `Math.sqrt`, passed in as `sqrtFn`. -/
def onaudioprocessLevel (sqrtFn : ℚ → ℚ) (frame : List ℚ) (prev : ℚ) : ℚ :=
  max (sqrtFn (sumSquares frame / (frame.length : ℚ))) (prev * (7 / 10))

/-- Root-mean-square as the spec words it: the square root of the mean of
the squared samples (spec-side definition, compared against the code's
update in C6). -/
def rmsSpec (sqrtFn : ℚ → ℚ) (frame : List ℚ) : ℚ :=
  sqrtFn ((frame.map fun a => a * a).sum / (frame.length : ℚ))

theorem foldl_add_sq (l : List ℚ) :
    ∀ c : ℚ, l.foldl (fun acc a => acc + a * a) c = c + (l.map fun a => a * a).sum := by
  induction l with
  | nil => intro c; simp
  | cons a t ih => intro c; simp only [List.foldl_cons, List.map_cons, List.sum_cons, ih]; ring

theorem sumSquares_eq_sum_map (frame : List ℚ) :
    sumSquares frame = (frame.map fun a => a * a).sum := by
  simpa using foldl_add_sq frame 0

/-- C6: for every captured frame, the new smoothed loudness equals
`max (rms frame) (previousLevel * 0.7)`, where `rms` is the root-mean-square
of the frame's samples (square root of the mean of the squares). -/
theorem c6_loudness_smoothing (sqrtFn : ℚ → ℚ) (frame : List ℚ) (prev : ℚ) :
    onaudioprocessLevel sqrtFn frame prev = max (rmsSpec sqrtFn frame) (prev * (7 / 10)) := by
  rw [onaudioprocessLevel, rmsSpec, sumSquares_eq_sum_map]

/-! ## Session data model -/

/-- Speaker tag of a transcript entry. -/
inductive Speaker
  | user
  | model
  deriving DecidableEq

/-- A committed transcript entry (`Transcription` in the source). -/
structure Transcription where
  speaker : Speaker
  text : String
  deriving DecidableEq

/-- `SessionState` from the source. -/
inductive SessionState
  | inactive
  | initializing
  | listening
  | speaking
  deriving DecidableEq

/-- One scheduled playback source: its start time on the output timeline and
its buffer duration (`source.start(nextStartTimeRef.current)`). -/
structure ScheduledSource where
  start : ℚ
  duration : ℚ
  deriving DecidableEq

/-- The component state touched by the session logic: the React state values
and the mutable refs of `AssistantView`. Browser resources held in refs
(contexts, stream, nodes, the session promise, the frame interval) are
modelled as booleans: present or released. -/
structure AssistantState where
  sessionState : SessionState
  isSessionActive : Bool
  transcriptionHistory : List Transcription
  currentUserText : String
  currentModelText : String
  userTurnText : String
  modelTurnText : String
  nextStartTime : ℚ
  outputSources : List ScheduledSource
  hasSessionPromise : Bool
  hasInputCtx : Bool
  hasOutputCtx : Bool
  hasOutputGain : Bool
  hasMediaStream : Bool
  hasScriptProcessor : Bool
  hasMediaStreamSource : Bool
  hasFrameInterval : Bool
  deriving DecidableEq

/-- Whitespace recognized by JavaScript `String.prototype.trim` (the ASCII
subset relevant to transcript text). -/
def jsWhitespace (c : Char) : Bool :=
  (c == ' ') || (c == '\t') || (c == '\n') || (c == '\r')

/-- JavaScript `String.prototype.trim`: drop leading and trailing
whitespace. -/
def jsTrim (s : String) : String :=
  String.mk (((s.data.dropWhile jsWhitespace).reverse.dropWhile jsWhitespace).reverse)

theorem jsTrim_empty : jsTrim "" = "" := rfl

theorem string_empty_append (t : String) : "" ++ t = t := rfl

/-! ## Tool-call dispatcher -/

/-- Arguments record carried by a tool call (`fc.args`). -/
structure ToolCallArgs where
  subject : String
  body : String
  voiceNumber : Int
  deriving DecidableEq

/-- A function call delivered inside a session message. -/
structure FunctionCall where
  id : String
  name : String
  args : ToolCallArgs
  deriving DecidableEq

/-- Observable side effects the dispatcher can perform. `logWarning` is
included so the absence of any logged warning is expressible; no dispatcher
path emits it (the switch has no default case and no logging). -/
inductive Effect
  | navigate (target : String)
  | voiceChange (voiceId : String)
  | openMail (subject : String) (body : String)
  | logWarning (message : String)
  deriving DecidableEq

/-- The payload of `session.sendToolResponse` for one call. -/
structure FunctionResponse where
  id : String
  name : String
  result : String
  deriving DecidableEq

/-- `VoiceOption` from `src/types.ts`. -/
structure VoiceOption where
  id : String
  name : String
  gender : String
  type : String
  deriving DecidableEq

/-- The voice registry `voices` from `src/types.ts`. -/
def voices : List VoiceOption :=
  [⟨"Charon", "Voice 1", "Male", "prebuilt"⟩,
   ⟨"Zephyr", "Voice 2", "Female", "prebuilt"⟩,
   ⟨"Puck", "Voice 3", "Male", "prebuilt"⟩,
   ⟨"Fenrir", "Voice 4", "Male", "prebuilt"⟩,
   ⟨"Kore", "Voice 5", "Female", "prebuilt"⟩]

/-- Default for out-of-range list reads (never reached in range). -/
def defaultVoice : VoiceOption := ⟨"", "", "", ""⟩

/-- The `switch (fc.name)` body of the `onmessage` tool-call loop: the
result string and side effects for one call. `result` starts as "OK" and is
only reassigned by the `sendEmail` and `select_voice_by_number` cases. -/
def dispatchToolCall (name : String) (args : ToolCallArgs) : String × List Effect :=
  if name = "sendEmail" then
    ("OK, user's email client opened.", [Effect.openMail args.subject args.body])
  else if name = "open_camera_mode" then ("OK", [Effect.navigate "camera"])
  else if name = "open_screen_share" then ("OK", [Effect.navigate "screen"])
  else if name = "open_voice_selection" then ("OK", [Effect.navigate "voice"])
  else if name = "open_voice_clone" then ("OK", [Effect.navigate "voice_clone"])
  else if name = "open_image_generator" then ("OK", [Effect.navigate "images"])
  else if name = "open_spark_mode" then ("OK", [Effect.navigate "spark"])
  else if name = "close_current_view" then ("OK", [Effect.navigate "close"])
  else if name = "select_voice_by_number" then
    if 1 ≤ args.voiceNumber ∧ args.voiceNumber ≤ (voices.length : Int) then
      ("OK, voice changed to " ++ (voices.getD (args.voiceNumber - 1).toNat defaultVoice).id ++ ".",
       [Effect.voiceChange (voices.getD (args.voiceNumber - 1).toNat defaultVoice).id])
    else
      ("Invalid voice number. Please choose a number between 1 and 5.", [])
  else ("OK", [])

/-- The registered call names (the cases of the dispatch switch). -/
def knownToolNames : List String :=
  ["sendEmail", "open_camera_mode", "open_screen_share", "open_voice_selection",
   "open_voice_clone", "open_image_generator", "open_spark_mode",
   "close_current_view", "select_voice_by_number"]

/-- The `for (const fc of message.toolCall.functionCalls)` loop: dispatch
each call in order and send back one response correlated by the call's id. -/
def handleToolCalls : List FunctionCall → List FunctionResponse × List Effect
  | [] => ([], [])
  | fc :: rest =>
      let r := dispatchToolCall fc.name fc.args
      let t := handleToolCalls rest
      (⟨fc.id, fc.name, r.1⟩ :: t.1, r.2 ++ t.2)

/-! ## The onmessage transport callback -/

/-- The inbound `LiveServerMessage` fields read by `onmessage`. An absent
`toolCall` is the empty call list. -/
structure ServerMessage where
  functionCalls : List FunctionCall
  outputTranscription : Option String
  inputTranscription : Option String
  turnComplete : Bool
  audioData : Option String
  interrupted : Bool
  deriving DecidableEq

/-- The output and input transcription block of `onmessage`: on an output
chunk, transition to `speaking`, commit the trimmed user buffer first when
nonempty, and append the chunk to the model buffers; otherwise an input
chunk is appended to the user buffers. -/
def applyTranscription (s : AssistantState) (m : ServerMessage) : AssistantState :=
  match m.outputTranscription with
  | some chunk =>
      { s with
          sessionState := SessionState.speaking,
          transcriptionHistory := s.transcriptionHistory
            ++ (if jsTrim s.userTurnText ≠ ""
                then [⟨Speaker.user, jsTrim s.userTurnText⟩] else []),
          userTurnText := if jsTrim s.userTurnText ≠ "" then "" else s.userTurnText,
          currentUserText := if jsTrim s.userTurnText ≠ "" then "" else s.currentUserText,
          modelTurnText := s.modelTurnText ++ chunk,
          currentModelText := s.currentModelText ++ chunk }
  | none =>
      match m.inputTranscription with
      | some chunk =>
          { s with
              userTurnText := s.userTurnText ++ chunk,
              currentUserText := s.userTurnText ++ chunk }
      | none => s

/-- The `turnComplete` block of `onmessage`: commit the trimmed user buffer
then the trimmed model buffer (each when nonempty, in that order), clear
both buffers, and transition back to `listening`. -/
def applyTurnComplete (s : AssistantState) (m : ServerMessage) : AssistantState :=
  if m.turnComplete then
    { s with
        transcriptionHistory := s.transcriptionHistory
          ++ (if jsTrim s.userTurnText ≠ ""
              then [⟨Speaker.user, jsTrim s.userTurnText⟩] else [])
          ++ (if jsTrim s.modelTurnText ≠ ""
              then [⟨Speaker.model, jsTrim s.modelTurnText⟩] else []),
        userTurnText := if jsTrim s.userTurnText ≠ "" then "" else s.userTurnText,
        currentUserText := if jsTrim s.userTurnText ≠ "" then "" else s.currentUserText,
        modelTurnText := "", currentModelText := "",
        sessionState := SessionState.listening }
  else s

/-- The audio-chunk block of `onmessage`: when a nonempty chunk arrives and
the output context and gain node are present, first advance the cursor to
`max nextStartTime currentTime`; when both decodes succeed, schedule the
buffer at the cursor, advance the cursor by the buffer's duration, and track
the source; a decode failure is caught and the chunk dropped (the cursor
advance to the max persists). `now` is `outputCtx.currentTime`. -/
def applyAudio (now : ℚ) (s : AssistantState) (m : ServerMessage) : AssistantState :=
  match m.audioData with
  | none => s
  | some base64Audio =>
      if base64Audio ≠ "" ∧ s.hasOutputCtx = true ∧ s.hasOutputGain = true then
        match decode base64Audio with
        | none => { s with nextStartTime := max s.nextStartTime now }
        | some bytes =>
            match decodeAudioData bytes 24000 1 with
            | none => { s with nextStartTime := max s.nextStartTime now }
            | some audioBuffer =>
                { s with
                    nextStartTime := max s.nextStartTime now + audioBuffer.duration,
                    outputSources := s.outputSources
                      ++ [⟨max s.nextStartTime now, audioBuffer.duration⟩] }
      else s

/-- The `interrupted` block of `onmessage`: stop every scheduled source and
clear the set, reset the cursor to 0, clear the model-turn buffers, and
transition to `listening`. -/
def applyInterrupted (s : AssistantState) (m : ServerMessage) : AssistantState :=
  if m.interrupted then
    { s with outputSources := [], nextStartTime := 0,
             currentModelText := "", modelTurnText := "",
             sessionState := SessionState.listening }
  else s

/-- Result of one `onmessage` invocation: the new session state, the tool
responses sent back, and the dispatcher side effects. -/
structure StepOutput where
  state : AssistantState
  responses : List FunctionResponse
  effects : List Effect
  deriving DecidableEq

/-- The `onmessage` transport callback: tool calls, transcription chunks,
turn completion, audio scheduling, then interruption, in source order. -/
def onmessage (now : ℚ) (s : AssistantState) (m : ServerMessage) : StepOutput :=
  let tc := handleToolCalls m.functionCalls
  let s1 := applyTranscription s m
  let s2 := applyTurnComplete s1 m
  let s3 := applyAudio now s2 m
  let s4 := applyInterrupted s3 m
  ⟨s4, tc.1, tc.2⟩

/-- `stopSession`: close the transport, stop and clear all scheduled
sources, disconnect the audio graph, stop the device tracks, close both
contexts, null all resource refs, clear all transcript state, and
transition to `inactive`. The playback cursor ref is left untouched. -/
def stopSession (s : AssistantState) : AssistantState :=
  { s with
      sessionState := SessionState.inactive,
      isSessionActive := false,
      transcriptionHistory := [],
      currentUserText := "", currentModelText := "",
      userTurnText := "", modelTurnText := "",
      outputSources := [],
      hasSessionPromise := false, hasInputCtx := false, hasOutputCtx := false,
      hasOutputGain := false, hasMediaStream := false,
      hasScriptProcessor := false, hasMediaStreamSource := false,
      hasFrameInterval := false }

/-- The synchronous initialization `startSession` performs up to the
transport connect: mark the session active and initializing, acquire the
stream, contexts and gain node, and reset the playback cursor to 0
(`nextStartTimeRef.current = 0`). -/
def startSessionInit (s : AssistantState) : AssistantState :=
  { s with
      sessionState := SessionState.initializing,
      isSessionActive := true,
      nextStartTime := 0,
      hasInputCtx := true, hasOutputCtx := true, hasOutputGain := true,
      hasMediaStream := true, hasSessionPromise := true }

/-- A message carrying only an output-transcript chunk. -/
def outputChunkMsg (chunk : String) : ServerMessage :=
  ⟨[], some chunk, none, false, none, false⟩

/-- A message carrying only the turn-complete flag. -/
def turnCompleteMsg : ServerMessage := ⟨[], none, none, true, none, false⟩

/-- A message carrying only an inbound audio chunk. -/
def audioMsg (base64Audio : String) : ServerMessage :=
  ⟨[], none, none, false, some base64Audio, false⟩

/-- A message carrying only the interruption flag. -/
def interruptionMsg : ServerMessage := ⟨[], none, none, false, none, true⟩

/-- An inactive baseline state (all refs released, everything cleared). -/
def inactiveState : AssistantState :=
  ⟨SessionState.inactive, false, [], "", "", "", "", 0, [],
   false, false, false, false, false, false, false, false⟩

/-- A speaking-state example with two queued audio chunks. -/
def exSpeakingState : AssistantState :=
  { inactiveState with
      sessionState := SessionState.speaking,
      isSessionActive := true,
      currentModelText := "Hi", modelTurnText := "Hi",
      nextStartTime := 3 / 2,
      outputSources := [⟨0, 1 / 2⟩, ⟨1 / 2, 1⟩],
      hasSessionPromise := true, hasInputCtx := true, hasOutputCtx := true,
      hasOutputGain := true, hasMediaStream := true,
      hasScriptProcessor := true, hasMediaStreamSource := true }

/-- C3: processing an interruption while the session is speaking with
queued audio chunks leaves the scheduled-source set empty, resets the
playback cursor to 0, clears the pending model-turn buffer, and transitions
to `listening`. -/
theorem c3_interruption_flush (now : ℚ) (s : AssistantState)
    (h : s.sessionState = SessionState.speaking) :
    ((onmessage now s interruptionMsg).state).outputSources = [] ∧
    ((onmessage now s interruptionMsg).state).nextStartTime = 0 ∧
    ((onmessage now s interruptionMsg).state).modelTurnText = "" ∧
    ((onmessage now s interruptionMsg).state).currentModelText = "" ∧
    ((onmessage now s interruptionMsg).state).sessionState = SessionState.listening :=
  ⟨rfl, rfl, rfl, rfl, rfl⟩

/-- Concrete instance of C3: barge-in during speaking with two queued
chunks. -/
theorem c3_interruption_flush_witness :
    exSpeakingState.sessionState = SessionState.speaking ∧
    (((onmessage 0 exSpeakingState interruptionMsg).state).outputSources = [] ∧
     ((onmessage 0 exSpeakingState interruptionMsg).state).nextStartTime = 0 ∧
     ((onmessage 0 exSpeakingState interruptionMsg).state).modelTurnText = "" ∧
     ((onmessage 0 exSpeakingState interruptionMsg).state).currentModelText = "" ∧
     ((onmessage 0 exSpeakingState interruptionMsg).state).sessionState
        = SessionState.listening) :=
  ⟨by decide, c3_interruption_flush 0 exSpeakingState (by decide)⟩

/-- C10: interruption handling leaves the accumulated user-turn partial
transcript and the committed transcript history unchanged, for every
session state. -/
theorem c10_interruption_frame (now : ℚ) (s : AssistantState) :
    ((onmessage now s interruptionMsg).state).userTurnText = s.userTurnText ∧
    ((onmessage now s interruptionMsg).state).currentUserText = s.currentUserText ∧
    ((onmessage now s interruptionMsg).state).transcriptionHistory
      = s.transcriptionHistory :=
  ⟨rfl, rfl, rfl⟩

/-- C7: `stopSession` is idempotent — a second call produces the same end
state and raises nothing (the model is total) — and the end state is
inactive with all transcript buffers and history cleared, no in-flight
sources, and all device/context/transport refs released. -/
theorem c7_stop_idempotent (s : AssistantState) :
    stopSession (stopSession s) = stopSession s ∧
    (stopSession s).sessionState = SessionState.inactive ∧
    (stopSession s).isSessionActive = false ∧
    (stopSession s).transcriptionHistory = [] ∧
    (stopSession s).currentUserText = "" ∧
    (stopSession s).currentModelText = "" ∧
    (stopSession s).userTurnText = "" ∧
    (stopSession s).modelTurnText = "" ∧
    (stopSession s).outputSources = [] ∧
    (stopSession s).hasSessionPromise = false ∧
    (stopSession s).hasInputCtx = false ∧
    (stopSession s).hasOutputCtx = false ∧
    (stopSession s).hasOutputGain = false ∧
    (stopSession s).hasMediaStream = false ∧
    (stopSession s).hasScriptProcessor = false ∧
    (stopSession s).hasMediaStreamSource = false ∧
    (stopSession s).hasFrameInterval = false :=
  ⟨rfl, rfl, rfl, rfl, rfl, rfl, rfl, rfl, rfl, rfl, rfl, rfl, rfl, rfl, rfl, rfl, rfl⟩

theorem applyTranscription_nextStartTime (s : AssistantState) (m : ServerMessage) :
    (applyTranscription s m).nextStartTime = s.nextStartTime := by
  rcases m with ⟨fcs, ot, it, tc, ad, ir⟩
  cases ot <;> cases it <;> rfl

theorem applyTurnComplete_nextStartTime (s : AssistantState) (m : ServerMessage) :
    (applyTurnComplete s m).nextStartTime = s.nextStartTime := by
  rcases m with ⟨fcs, ot, it, tc, ad, ir⟩
  cases tc <;> rfl

theorem duration_nonneg (b : AudioBufferModel) : (0 : ℚ) ≤ b.duration :=
  div_nonneg (Nat.cast_nonneg _) (Nat.cast_nonneg _)

theorem applyAudio_nextStartTime_le (now : ℚ) (s : AssistantState) (m : ServerMessage) :
    s.nextStartTime ≤ (applyAudio now s m).nextStartTime := by
  unfold applyAudio
  split
  · exact le_rfl
  · split
    · split
      · exact le_max_left _ _
      · split
        · exact le_max_left _ _
        · exact (le_max_left _ _).trans
            (le_add_of_nonneg_right (duration_nonneg _))
    · exact le_rfl

theorem applyInterrupted_of_not (s : AssistantState) (m : ServerMessage)
    (h : m.interrupted = false) : applyInterrupted s m = s := by
  simp [applyInterrupted, h]

theorem applyInterrupted_nextStartTime_zero (s : AssistantState) (m : ServerMessage)
    (h : m.interrupted = true) : (applyInterrupted s m).nextStartTime = 0 := by
  simp [applyInterrupted, h]

/-- C4 counterexample: `stopSession` does not reset the playback cursor —
from a speaking state with cursor 3/2 the cursor is still nonzero after
stop (only the next `startSession` resets it). -/
theorem c4_counterexample : (stopSession exSpeakingState).nextStartTime ≠ 0 := by
  norm_num [stopSession, exSpeakingState, inactiveState]

/-- C4 (amended): while a session is active the playback cursor
`nextPlaybackTime` never decreases across any non-interruption message —
an audio chunk moves it exactly to `max nextPlaybackTime currentTime` plus
the decoded buffer's duration — it is reset to zero on session start and on
interruption, but `stopSession` itself leaves the cursor untouched (only
the next start resets it). -/
theorem c4_playback_cursor_amended (now : ℚ) (s : AssistantState) (m : ServerMessage) :
    (m.interrupted = false →
        s.nextStartTime ≤ ((onmessage now s m).state).nextStartTime) ∧
    (m.interrupted = true → ((onmessage now s m).state).nextStartTime = 0) ∧
    (∀ s0 : AssistantState, (startSessionInit s0).nextStartTime = 0) ∧
    (∀ base64Audio bytes audioBuffer, base64Audio ≠ "" →
      s.hasOutputCtx = true → s.hasOutputGain = true →
      decode base64Audio = some bytes →
      decodeAudioData bytes 24000 1 = some audioBuffer →
      ((onmessage now s (audioMsg base64Audio)).state).nextStartTime
          = max s.nextStartTime now + audioBuffer.duration ∧
      ((onmessage now s (audioMsg base64Audio)).state).outputSources
          = s.outputSources ++ [⟨max s.nextStartTime now, audioBuffer.duration⟩]) := by
  refine ⟨?_, ?_, fun s0 => rfl, ?_⟩
  · intro h
    have e : (onmessage now s m).state
        = applyAudio now (applyTurnComplete (applyTranscription s m) m) m :=
      applyInterrupted_of_not _ m h
    rw [e]
    calc s.nextStartTime
        = (applyTranscription s m).nextStartTime :=
          (applyTranscription_nextStartTime s m).symm
      _ = (applyTurnComplete (applyTranscription s m) m).nextStartTime :=
          (applyTurnComplete_nextStartTime _ m).symm
      _ ≤ _ := applyAudio_nextStartTime_le now _ m
  · intro h
    exact applyInterrupted_nextStartTime_zero _ m h
  · intro base64Audio bytes audioBuffer hb hctx hgain hdec hbuf
    have e : (onmessage now s (audioMsg base64Audio)).state
        = applyAudio now s (audioMsg base64Audio) := rfl
    have hc : base64Audio ≠ "" ∧ s.hasOutputCtx = true ∧ s.hasOutputGain = true :=
      ⟨hb, hctx, hgain⟩
    rw [e]
    simp only [applyAudio, audioMsg, hdec, hbuf, if_pos hc]
    constructor <;> trivial

/-- A listening-state example with the output context and gain present and
a nonzero playback cursor. -/
def exAudioState : AssistantState :=
  { inactiveState with
      sessionState := SessionState.listening,
      isSessionActive := true,
      nextStartTime := 1 / 4,
      hasSessionPromise := true, hasInputCtx := true, hasOutputCtx := true,
      hasOutputGain := true, hasMediaStream := true }

/-- Concrete instance of the amended C4: reset on interruption,
non-decrease on a turn-complete message, and the exact audio-enqueue
advance on the chunk `"AAA="` (two zero bytes, one frame). -/
theorem c4_playback_cursor_amended_witness :
    (interruptionMsg.interrupted = true ∧
      ((onmessage 0 exAudioState interruptionMsg).state).nextStartTime = 0) ∧
    (turnCompleteMsg.interrupted = false ∧
      exAudioState.nextStartTime
        ≤ ((onmessage 0 exAudioState turnCompleteMsg).state).nextStartTime) ∧
    (((onmessage 0 exAudioState (audioMsg "AAA=")).state).nextStartTime
        = max exAudioState.nextStartTime 0
            + AudioBufferModel.duration ⟨24000, [[0]]⟩ ∧
     ((onmessage 0 exAudioState (audioMsg "AAA=")).state).outputSources
        = exAudioState.outputSources
            ++ [⟨max exAudioState.nextStartTime 0,
                 AudioBufferModel.duration ⟨24000, [[0]]⟩⟩]) :=
  ⟨⟨rfl, (c4_playback_cursor_amended 0 exAudioState interruptionMsg).2.1 rfl⟩,
   ⟨rfl, (c4_playback_cursor_amended 0 exAudioState turnCompleteMsg).1 rfl⟩,
   (c4_playback_cursor_amended 0 exAudioState (audioMsg "AAA=")).2.2.2
     "AAA=" [0, 0] ⟨24000, [[0]]⟩ (by decide) rfl rfl (by decide)
     (by simp [decodeAudioData, bytesToInt16, toInt16])⟩

/-- C2: from `listening` with a pending user partial transcript, the first
output-transcript chunk of a model turn commits the trimmed user text as a
`{user, text}` entry and transitions to `speaking`; the following
turn-complete commits any pending user buffer (empty here) and then the
model buffer, in that order, clears both buffers, and returns to
`listening`. -/
theorem c2_normal_turn (now : ℚ) (s : AssistantState) (chunk : String)
    (hstate : s.sessionState = SessionState.listening)
    (huser : jsTrim s.userTurnText ≠ "")
    (hmodel : s.modelTurnText = "")
    (hchunk : jsTrim chunk ≠ "") :
    ((onmessage now s (outputChunkMsg chunk)).state).sessionState
        = SessionState.speaking ∧
    ((onmessage now s (outputChunkMsg chunk)).state).transcriptionHistory
        = s.transcriptionHistory ++ [⟨Speaker.user, jsTrim s.userTurnText⟩] ∧
    ((onmessage now s (outputChunkMsg chunk)).state).userTurnText = "" ∧
    ((onmessage now s (outputChunkMsg chunk)).state).modelTurnText = chunk ∧
    ((onmessage now ((onmessage now s (outputChunkMsg chunk)).state)
        turnCompleteMsg).state).transcriptionHistory
        = s.transcriptionHistory
            ++ [⟨Speaker.user, jsTrim s.userTurnText⟩,
                ⟨Speaker.model, jsTrim chunk⟩] ∧
    ((onmessage now ((onmessage now s (outputChunkMsg chunk)).state)
        turnCompleteMsg).state).userTurnText = "" ∧
    ((onmessage now ((onmessage now s (outputChunkMsg chunk)).state)
        turnCompleteMsg).state).modelTurnText = "" ∧
    ((onmessage now ((onmessage now s (outputChunkMsg chunk)).state)
        turnCompleteMsg).state).sessionState = SessionState.listening := by
  have e1 : (onmessage now s (outputChunkMsg chunk)).state
      = applyTranscription s (outputChunkMsg chunk) := rfl
  have hA : applyTranscription s (outputChunkMsg chunk)
      = { s with
            sessionState := SessionState.speaking,
            transcriptionHistory := s.transcriptionHistory
              ++ [⟨Speaker.user, jsTrim s.userTurnText⟩],
            userTurnText := "", currentUserText := "",
            modelTurnText := chunk,
            currentModelText := s.currentModelText ++ chunk } := by
    simp only [applyTranscription, outputChunkMsg, if_pos huser]
    rw [hmodel, string_empty_append]
  have e2 : ∀ x : AssistantState,
      (onmessage now x turnCompleteMsg).state = applyTurnComplete x turnCompleteMsg :=
    fun x => rfl
  rw [e1, hA, e2]
  refine ⟨rfl, rfl, rfl, rfl, ?_, ?_, ?_, ?_⟩ <;>
    simp [applyTurnComplete, turnCompleteMsg, jsTrim_empty, hchunk]

/-- A listening-state example with an accumulated user partial transcript
"hello". -/
def exListeningState : AssistantState :=
  { inactiveState with
      sessionState := SessionState.listening,
      isSessionActive := true,
      userTurnText := "hello", currentUserText := "hello",
      hasSessionPromise := true, hasInputCtx := true, hasOutputCtx := true,
      hasOutputGain := true, hasMediaStream := true }

/-- Concrete instance of C2: user partial "hello", first model chunk "Hi",
then turn-complete. -/
theorem c2_normal_turn_witness :
    (exListeningState.sessionState = SessionState.listening ∧
     jsTrim exListeningState.userTurnText ≠ "" ∧
     exListeningState.modelTurnText = "" ∧ jsTrim "Hi" ≠ "") ∧
    (((onmessage 0 exListeningState (outputChunkMsg "Hi")).state).sessionState
        = SessionState.speaking ∧
     ((onmessage 0 exListeningState (outputChunkMsg "Hi")).state).transcriptionHistory
        = exListeningState.transcriptionHistory
            ++ [⟨Speaker.user, jsTrim exListeningState.userTurnText⟩] ∧
     ((onmessage 0 exListeningState (outputChunkMsg "Hi")).state).userTurnText = "" ∧
     ((onmessage 0 exListeningState (outputChunkMsg "Hi")).state).modelTurnText = "Hi" ∧
     ((onmessage 0 ((onmessage 0 exListeningState (outputChunkMsg "Hi")).state)
        turnCompleteMsg).state).transcriptionHistory
        = exListeningState.transcriptionHistory
            ++ [⟨Speaker.user, jsTrim exListeningState.userTurnText⟩,
                ⟨Speaker.model, jsTrim "Hi"⟩] ∧
     ((onmessage 0 ((onmessage 0 exListeningState (outputChunkMsg "Hi")).state)
        turnCompleteMsg).state).userTurnText = "" ∧
     ((onmessage 0 ((onmessage 0 exListeningState (outputChunkMsg "Hi")).state)
        turnCompleteMsg).state).modelTurnText = "" ∧
     ((onmessage 0 ((onmessage 0 exListeningState (outputChunkMsg "Hi")).state)
        turnCompleteMsg).state).sessionState = SessionState.listening) :=
  ⟨⟨by decide, by decide, by decide, by decide⟩,
   c2_normal_turn 0 exListeningState "Hi" (by decide) (by decide) (by decide) (by decide)⟩

/-- Argument record for a `select_voice_by_number` call. -/
def selectVoiceArgs (n : Int) : ToolCallArgs := ⟨"", "", n⟩

/-- C8: a `select_voice_by_number` call with `voiceNumber` outside
1..`voices.length` returns the explicit invalid-selection result string and
performs no side effect; in range it switches to the N-th registered voice
and returns a success result naming that voice. -/
theorem c8_select_voice_by_number (n : Int) :
    ((n < 1 ∨ (voices.length : Int) < n) →
      dispatchToolCall "select_voice_by_number" (selectVoiceArgs n)
        = ("Invalid voice number. Please choose a number between 1 and 5.", [])) ∧
    (1 ≤ n → n ≤ (voices.length : Int) →
      dispatchToolCall "select_voice_by_number" (selectVoiceArgs n)
        = ("OK, voice changed to "
              ++ (voices.getD (n - 1).toNat defaultVoice).id ++ ".",
           [Effect.voiceChange (voices.getD (n - 1).toNat defaultVoice).id])) := by
  have key : dispatchToolCall "select_voice_by_number" (selectVoiceArgs n)
      = if 1 ≤ n ∧ n ≤ (voices.length : Int) then
          ("OK, voice changed to "
              ++ (voices.getD (n - 1).toNat defaultVoice).id ++ ".",
           [Effect.voiceChange (voices.getD (n - 1).toNat defaultVoice).id])
        else ("Invalid voice number. Please choose a number between 1 and 5.", []) := by
    simp [dispatchToolCall, selectVoiceArgs]
  constructor
  · intro h
    have hn : ¬(1 ≤ n ∧ n ≤ (voices.length : Int)) := by omega
    rw [key, if_neg hn]
  · intro h1 h2
    rw [key, if_pos ⟨h1, h2⟩]

/-- Concrete instances of C8: N = 99 is rejected with the invalid-selection
string and no effect; N = 2 switches to the second registered voice. -/
theorem c8_select_voice_by_number_witness :
    ((99 : Int) < 1 ∨ (voices.length : Int) < 99) ∧
    dispatchToolCall "select_voice_by_number" (selectVoiceArgs 99)
      = ("Invalid voice number. Please choose a number between 1 and 5.", []) ∧
    dispatchToolCall "select_voice_by_number" (selectVoiceArgs 2)
      = ("OK, voice changed to "
            ++ (voices.getD ((2 : Int) - 1).toNat defaultVoice).id ++ ".",
         [Effect.voiceChange (voices.getD ((2 : Int) - 1).toNat defaultVoice).id]) :=
  ⟨by decide,
   (c8_select_voice_by_number 99).1 (by decide),
   (c8_select_voice_by_number 2).2 (by decide) (by decide)⟩

theorem handleToolCalls_ids (fcs : List FunctionCall) :
    ((handleToolCalls fcs).1.map fun r => (r.id, r.name))
      = fcs.map fun fc => (fc.id, fc.name) := by
  induction fcs with
  | nil => rfl
  | cons fc rest ih => simp [handleToolCalls, ih]

theorem dispatch_unknown (name : String) (args : ToolCallArgs)
    (h : name ∉ knownToolNames) : dispatchToolCall name args = ("OK", []) := by
  have h9 : ¬name = "sendEmail" ∧ ¬name = "open_camera_mode" ∧
      ¬name = "open_screen_share" ∧ ¬name = "open_voice_selection" ∧
      ¬name = "open_voice_clone" ∧ ¬name = "open_image_generator" ∧
      ¬name = "open_spark_mode" ∧ ¬name = "close_current_view" ∧
      ¬name = "select_voice_by_number" := by
    simpa [knownToolNames, not_or] using h
  obtain ⟨h1, h2, h3, h4, h5, h6, h7, h8, h9⟩ := h9
  simp [dispatchToolCall, h1, h2, h3, h4, h5, h6, h7, h8, h9]

/-- An unknown tool call used as the concrete counterexample input. -/
def unknownCall : FunctionCall := ⟨"call-1", "frobnicate", ⟨"", "", 0⟩⟩

/-- C9 counterexample: dispatching an unknown call name produces no side
effect at all — in particular no logged warning accompanies the "OK"
acknowledgment, because the switch has no default case and no logging. -/
theorem c9_counterexample : (handleToolCalls [unknownCall]).2 = [] := by decide

/-- C9 (amended): every call in a message is acknowledged with a response
correlated by the call's identifier — none is left unacknowledged — and a
call whose name is not in the handler registry performs no side effect and
is answered with the generic result "OK" (no warning is logged). -/
theorem c9_unknown_call_amended (fcs : List FunctionCall) (fc : FunctionCall)
    (h : fc.name ∉ knownToolNames) :
    ((handleToolCalls fcs).1.map fun r => (r.id, r.name))
      = (fcs.map fun fc0 => (fc0.id, fc0.name)) ∧
    dispatchToolCall fc.name fc.args = ("OK", []) ∧
    handleToolCalls [fc] = ([⟨fc.id, fc.name, "OK"⟩], []) := by
  refine ⟨handleToolCalls_ids fcs, dispatch_unknown fc.name fc.args h, ?_⟩
  simp [handleToolCalls, dispatch_unknown fc.name fc.args h]

/-- Concrete instance of the amended C9 on the unknown call "frobnicate". -/
theorem c9_unknown_call_amended_witness :
    unknownCall.name ∉ knownToolNames ∧
    (((handleToolCalls [unknownCall]).1.map fun r => (r.id, r.name))
        = ([unknownCall].map fun fc0 => (fc0.id, fc0.name)) ∧
     dispatchToolCall unknownCall.name unknownCall.args = ("OK", []) ∧
     handleToolCalls [unknownCall]
        = ([⟨unknownCall.id, unknownCall.name, "OK"⟩], [])) :=
  ⟨by decide, c9_unknown_call_amended [unknownCall] unknownCall (by decide)⟩

end AssistantView
